import Mathlib

/-!
Shallow embedding of the simulation core of the Breakout game
(`src/main.rs`): the collision resolver (`CollisionSystem::run`), the
paddle controller (`PaddleSystem::run`), the `PlayState` pause/resume
state machine with its debounce timer, and the `StartState` asset
polling loop.

Floating-point values (`f32`) are modelled as exact rationals `ℚ`; none
of the verified properties depends on rounding.  Sound playback
(`play_sound_in_system` / `play_sound_in_state`) is modelled as a list
of emitted sound-trigger requests, since audio output is an external
collaborator.  Entity deletion (`entities.delete`) is modelled by
removing the entity from the list of paddle-like entities that the
resolver iterates over.
-/

namespace Breakout

/-- `VIRTUAL_WIDTH` constant from `src/main.rs`. -/
def VIRTUAL_WIDTH : ℚ := 432

/-- `VIRTUAL_HEIGHT` constant from `src/main.rs`. -/
def VIRTUAL_HEIGHT : ℚ := 243

/-- `BALL_VELOCITY` constant from `src/main.rs`. -/
def BALL_VELOCITY : ℚ := 70

/-- The `Ball` component: velocity components and radius. -/
structure Ball where
  velocity_x : ℚ
  velocity_y : ℚ
  radius : ℚ
deriving DecidableEq, Repr

/-- A paddle-like entity as seen by `CollisionSystem::run`: the `Paddle`
component (width, height), its `Transform` translation (x, y), and
whether the entity carries the `Player` tag.  (The source probes a
`Player` tag storage; per the design notes we carry the discriminant
directly.) -/
structure PaddleEnt where
  width : ℚ
  height : ℚ
  x : ℚ
  y : ℚ
  isPlayer : Bool
deriving DecidableEq, Repr

/-- The `SoundType` enum from `src/main.rs`. -/
inductive SoundType where
  | PaddleHit
  | Confirm
  | Pause
  | WallHit
  | BrickHit2
deriving DecidableEq, Repr

/-- `point_in_rect` from `src/main.rs`:
`x >= left && x <= right && y >= bottom && y <= top`. -/
def point_in_rect (x y left bottom right top : ℚ) : Bool :=
  decide (left ≤ x) && decide (x ≤ right) && decide (bottom ≤ y) && decide (y ≤ top)

/-- Vertical wall stage of `CollisionSystem::run`: if
`ball_y <= ball.radius && ball.velocity_y < 0.0` or
`ball_y >= VIRTUAL_HEIGHT - ball.radius && ball.velocity_y > 0.0`, play
the wall-hit sound and negate `velocity_y`. -/
def wallVertical (ball_y : ℚ) (ball : Ball) : Ball × List SoundType :=
  if (ball_y ≤ ball.radius ∧ ball.velocity_y < 0)
      ∨ (VIRTUAL_HEIGHT - ball.radius ≤ ball_y ∧ 0 < ball.velocity_y) then
    ({ ball with velocity_y := -ball.velocity_y }, [SoundType.WallHit])
  else
    (ball, [])

/-- Horizontal wall stage of `CollisionSystem::run`: the symmetric test
on `ball_x` and `velocity_x` against `VIRTUAL_WIDTH`. -/
def wallHorizontal (ball_x : ℚ) (ball : Ball) : Ball × List SoundType :=
  if (ball_x ≤ ball.radius ∧ ball.velocity_x < 0)
      ∨ (VIRTUAL_WIDTH - ball.radius ≤ ball_x ∧ 0 < ball.velocity_x) then
    ({ ball with velocity_x := -ball.velocity_x }, [SoundType.WallHit])
  else
    (ball, [])

/-- The expanded-bounding-box overlap test from the paddle loop of
`CollisionSystem::run`: the paddle's axis-aligned box, grown by the
ball's radius on all four sides, tested against the ball's center. -/
def ballOverlapsPaddle (ball_x ball_y radius : ℚ) (p : PaddleEnt) : Bool :=
  let paddle_x := p.x - p.width * (1 / 2)
  let paddle_y := p.y - p.height * (1 / 2)
  point_in_rect ball_x ball_y (paddle_x - radius) (paddle_y - radius)
    (paddle_x + p.width + radius) (paddle_y + p.height + radius)

/-- One iteration of the paddle loop of `CollisionSystem::run` for a
single paddle-like entity.  Returns the updated ball, whether the
entity was deleted (`entities.delete(e)`), and the sounds requested. -/
def paddleBounce (ball_x ball_y : ℚ) (p : PaddleEnt) (ball : Ball) :
    Ball × Bool × List SoundType :=
  if ballOverlapsPaddle ball_x ball_y ball.radius p then
    if p.isPlayer then
      if ball.velocity_y < 0 then
        ({ ball with velocity_y := -ball.velocity_y }, false, [SoundType.PaddleHit])
      else
        (ball, false, [])
    else
      ({ ball with velocity_y := -ball.velocity_y }, true, [SoundType.BrickHit2])
  else
    (ball, false, [])

/-- The paddle loop of `CollisionSystem::run`, folded over the list of
paddle-like entities in iteration order.  Returns the final ball, the
entities surviving the frame (deleted bricks removed), and the sounds
requested. -/
def paddleLoop (ball_x ball_y : ℚ) :
    Ball → List PaddleEnt → Ball × List PaddleEnt × List SoundType
  | ball, [] => (ball, [], [])
  | ball, p :: ps =>
    let r := paddleBounce ball_x ball_y p ball
    let rest := paddleLoop ball_x ball_y r.1 ps
    (rest.1, (if r.2.1 then rest.2.1 else p :: rest.2.1), r.2.2 ++ rest.2.2)

/-- One full pass of `CollisionSystem::run` for one ball at position
(`ball_x`, `ball_y`): vertical wall stage, then horizontal wall stage,
then the paddle loop, in source order. -/
def collisionPass (ball_x ball_y : ℚ) (ball : Ball) (ents : List PaddleEnt) :
    Ball × List PaddleEnt × List SoundType :=
  let v := wallVertical ball_y ball
  let h := wallHorizontal ball_x v.1
  let l := paddleLoop ball_x ball_y h.1 ents
  (l.1, l.2.1, v.2 ++ h.2 ++ l.2.2)

/-- Several frames of the collision resolver: each frame supplies the
ball's position (written earlier in the tick by `BallSystem`), and the
resolver updates the ball's velocity and the entity store. -/
def runFrames : List (ℚ × ℚ) → Ball × List PaddleEnt → Ball × List PaddleEnt
  | [], s => s
  | f :: fs, s =>
    let r := collisionPass f.1 f.2 s.1 s.2
    runFrames fs (r.1, r.2.1)

/-- One step of `PaddleSystem::run` for the Player-tagged paddle: when
the `horizontal` axis is nonzero, move by
`dx = delta_seconds * 200.0 * horizontal` and clamp via
`(paddle_x + dx).min(VIRTUAL_WIDTH - paddle.width / 2.).max(paddle.width / 2.)`;
when the axis is zero, the transform is not written. -/
def paddleSystemStep (delta_seconds horizontal width paddle_x : ℚ) : ℚ :=
  if horizontal ≠ 0 then
    let dx := delta_seconds * 200 * horizontal
    max (min (paddle_x + dx) (VIRTUAL_WIDTH - width / 2)) (width / 2)
  else
    paddle_x

/-- The mutable fields of `PlayState` that the pause/resume machinery
touches: the `debounce_timer: Option<f32>`. -/
structure PlaySt where
  debounce_timer : Option ℚ
deriving DecidableEq, Repr

/-- The "PAUSED" title `UiText` entity as the `PlayState` handlers see
it: its text content and whether it carries the `Hidden` marker. -/
structure TitleUi where
  text : String
  hidden : Bool
deriving DecidableEq, Repr

/-- The title-text write of `PlayState::on_start`:
`title_ui_text.text = String::from("PAUSED")`. -/
def play_on_start_title (ui : TitleUi) : TitleUi :=
  { ui with text := "PAUSED" }

/-- `PlayState::on_pause`: plays the pause sound and removes the
`Hidden` marker from the title text (showing it).  It writes neither
the text content nor the debounce timer. -/
def play_on_pause (ps : PlaySt) (ui : TitleUi) : PlaySt × TitleUi × List SoundType :=
  (ps, { ui with hidden := false }, [SoundType.Pause])

/-- `PlayState::on_resume`: sets `debounce_timer = Some(0.25)`, plays
the pause sound and inserts the `Hidden` marker on the title text
(hiding it).  It does not write the text content. -/
def play_on_resume (ps : PlaySt) (ui : TitleUi) : PlaySt × TitleUi × List SoundType :=
  ({ ps with debounce_timer := some (1 / 4) }, { ui with hidden := true }, [SoundType.Pause])

/-- The debounce-timer step of `PlayState::update`: `take()` the timer;
if present, subtract the frame's `delta_seconds`; put the decremented
value back only while it is still `>= 0.0`. -/
def playUpdate (delta_seconds : ℚ) (ps : PlaySt) : PlaySt :=
  match ps.debounce_timer with
  | none => ps
  | some t =>
    let t2 := t - delta_seconds
    if 0 ≤ t2 then { ps with debounce_timer := some t2 } else { ps with debounce_timer := none }

/-- The Play/Paused fragment of the mode state machine: `play` is
`PlayState` live on top of the stack, `paused` is `PausedState` pushed
above a retained `PlayState`. -/
inductive Mode where
  | play (ps : PlaySt)
  | paused (ps : PlaySt)
deriving DecidableEq, Repr

/-- Handling of a Space `KeyPressed` event by the top of the state
stack.  In `PlayState::handle_event` a push to `PausedState` happens
only `if self.debounce_timer.is_none()` (running `on_pause`);
in `PausedState::handle_event` Space pops back to Play (running
`on_resume`). -/
def handleSpace : Mode × TitleUi → Mode × TitleUi × List SoundType
  | (Mode.play ps, ui) =>
    if ps.debounce_timer.isNone then
      let r := play_on_pause ps ui
      (Mode.paused r.1, r.2.1, r.2.2)
    else
      (Mode.play ps, ui, [])
  | (Mode.paused ps, ui) =>
    let r := play_on_resume ps ui
    (Mode.play r.1, r.2.1, r.2.2)

/-- One frame's `update` of the active state: `PlayState::update` runs
the debounce-timer step; `PausedState::update` runs the game data with
simulation systems disabled and never touches the retained
`PlayState`. -/
def modeUpdate (delta_seconds : ℚ) : Mode → Mode
  | Mode.play ps => Mode.play (playUpdate delta_seconds ps)
  | Mode.paused ps => Mode.paused ps

/-- Folding `modeUpdate` over a list of frame delta-times. -/
def modeUpdates (dts : List ℚ) (m : Mode) : Mode :=
  dts.foldl (fun m d => modeUpdate d m) m

/-- The `AssetType` enum from `src/main.rs`. -/
inductive AssetType where
  | Background (pos : ℕ)
  | PaddleSmall (pos : ℕ)
  | PaddleMedium (pos : ℕ)
  | Ball (pos : ℕ)
deriving DecidableEq, Repr

/-- The asset list passed to `init_assets` by `StartState::on_start`. -/
def startAssetList : List AssetType :=
  [AssetType.Background 0, AssetType.PaddleSmall 0, AssetType.PaddleMedium 1, AssetType.Ball 2]

/-- Whether an asset is a `Background`, the discriminant matched by the
background-spawning loop of `StartState::update`. -/
def isBackgroundAsset : AssetType → Bool
  | AssetType.Background _ => true
  | _ => false

/-- The `StartState` field driving the polling loop:
`progress_counter: Option<ProgressCounter>`, with the counter
abstracted to the value its `is_complete()` poll returns. -/
structure StartSt where
  progress_counter : Option Bool
deriving DecidableEq, Repr

/-- The asset-polling step of `StartState::update`: if the progress
token is present and complete, spawn one background entity per
`Background` asset in the sprite-sheet map and clear the token;
otherwise change nothing.  `backgrounds` counts the background entities
spawned so far. -/
def startUpdate (st : StartSt) (backgrounds : ℕ) : StartSt × ℕ :=
  match st.progress_counter with
  | some complete =>
    if complete then
      ({ progress_counter := none },
        backgrounds + (startAssetList.filter isBackgroundAsset).length)
    else
      (st, backgrounds)
  | none => (st, backgrounds)

/-- `n` further frames of `StartState::update` polling. -/
def iterStartUpdate : ℕ → StartSt × ℕ → StartSt × ℕ
  | 0, s => s
  | n + 1, s => iterStartUpdate n (startUpdate s.1 s.2)

/-- A bounce never changes the ball's radius. -/
lemma paddleBounce_radius (ball_x ball_y : ℚ) (p : PaddleEnt) (ball : Ball) :
    (paddleBounce ball_x ball_y p ball).1.radius = ball.radius := by
  unfold paddleBounce
  split_ifs <;> rfl

/-- The paddle loop's deletion decision for one entity depends only on
the overlap test and the Player tag, not on the ball's velocity. -/
lemma paddleBounce_delete (ball_x ball_y : ℚ) (p : PaddleEnt) (ball : Ball) :
    (paddleBounce ball_x ball_y p ball).2.1 =
      (ballOverlapsPaddle ball_x ball_y ball.radius p && !p.isPlayer) := by
  unfold paddleBounce
  split_ifs with h1 h2 h3 <;> simp_all

/-- The entities surviving the paddle loop are exactly those that are
not overlapped non-Player entities. -/
lemma paddleLoop_ents_eq_filter (ball_x ball_y : ℚ) (ball : Ball) (ents : List PaddleEnt) :
    (paddleLoop ball_x ball_y ball ents).2.1 =
      ents.filter
        (fun q => !(ballOverlapsPaddle ball_x ball_y ball.radius q && !q.isPlayer)) := by
  induction ents generalizing ball with
  | nil => rfl
  | cons p ps ih =>
    show (if (paddleBounce ball_x ball_y p ball).2.1 then _ else p :: _) = _
    rw [ih, paddleBounce_radius, paddleBounce_delete, List.filter_cons]
    cases hB : (ballOverlapsPaddle ball_x ball_y ball.radius p && !p.isPlayer) with
    | true => simp [hB]
    | false => simp [hB]

/-- The vertical wall stage never changes the ball's radius. -/
lemma wallVertical_radius (ball_y : ℚ) (ball : Ball) :
    (wallVertical ball_y ball).1.radius = ball.radius := by
  unfold wallVertical
  split_ifs <;> rfl

/-- The horizontal wall stage never changes the ball's radius. -/
lemma wallHorizontal_radius (ball_x : ℚ) (ball : Ball) :
    (wallHorizontal ball_x ball).1.radius = ball.radius := by
  unfold wallHorizontal
  split_ifs <;> rfl

/-- The entities surviving a full collision pass are exactly those that
are not overlapped non-Player entities. -/
lemma collisionPass_ents_eq_filter (ball_x ball_y : ℚ) (ball : Ball)
    (ents : List PaddleEnt) :
    (collisionPass ball_x ball_y ball ents).2.1 =
      ents.filter
        (fun q => !(ballOverlapsPaddle ball_x ball_y ball.radius q && !q.isPlayer)) := by
  show (paddleLoop ball_x ball_y (wallHorizontal ball_x (wallVertical ball_y ball).1).1 ents).2.1 = _
  rw [paddleLoop_ents_eq_filter, wallHorizontal_radius, wallVertical_radius]

/-- A collision pass never adds entities: an entity absent from the
store stays absent. -/
lemma runFrames_not_mem (frames : List (ℚ × ℚ)) (ball : Ball) (ents : List PaddleEnt)
    (p : PaddleEnt) (h : p ∉ ents) : p ∉ (runFrames frames (ball, ents)).2 := by
  induction frames generalizing ball ents with
  | nil => exact h
  | cons f fs ih =>
    show p ∉ (runFrames fs
      ((collisionPass f.1 f.2 ball ents).1, (collisionPass f.1 f.2 ball ents).2.1)).2
    exact ih _ _ fun hm =>
      h (List.mem_of_mem_filter (collisionPass_ents_eq_filter f.1 f.2 ball ents ▸ hm))

/-- A Player-tagged entity survives every collision pass. -/
lemma runFrames_player_mem (frames : List (ℚ × ℚ)) (ball : Ball) (ents : List PaddleEnt)
    (p : PaddleEnt) (hmem : p ∈ ents) (hp : p.isPlayer = true) :
    p ∈ (runFrames frames (ball, ents)).2 := by
  induction frames generalizing ball ents with
  | nil => exact hmem
  | cons f fs ih =>
    show p ∈ (runFrames fs
      ((collisionPass f.1 f.2 ball ents).1, (collisionPass f.1 f.2 ball ents).2.1)).2
    refine ih _ _ ?_
    rw [collisionPass_ents_eq_filter]
    exact List.mem_filter.mpr ⟨hmem, by simp [hp]⟩

/-- When every entity overlapped by the ball is a brick, the paddle
loop deletes exactly the overlapped entities, flips `velocity_y` once
per overlapped brick, and requests one brick-hit sound per overlapped
brick. -/
lemma paddleLoop_overlapped_bricks (ball_x ball_y r : ℚ) (ball : Ball)
    (hr : ball.radius = r) (ents : List PaddleEnt)
    (h : ∀ q ∈ ents,
      ballOverlapsPaddle ball_x ball_y r q = true → q.isPlayer = false) :
    (paddleLoop ball_x ball_y ball ents).2.1 =
      ents.filter (fun q => !ballOverlapsPaddle ball_x ball_y r q) ∧
    (paddleLoop ball_x ball_y ball ents).1.velocity_y =
      (-1) ^ (ents.filter
          (fun q => ballOverlapsPaddle ball_x ball_y r q)).length *
        ball.velocity_y ∧
    (paddleLoop ball_x ball_y ball ents).2.2 =
      List.replicate
        (ents.filter (fun q => ballOverlapsPaddle ball_x ball_y r q)).length
        SoundType.BrickHit2 := by
  induction ents generalizing ball with
  | nil => exact ⟨rfl, by simp [paddleLoop], rfl⟩
  | cons p ps ih =>
    by_cases hov : ballOverlapsPaddle ball_x ball_y r p = true
    · have hpl : p.isPlayer = false := h p (List.mem_cons_self p ps) hov
      have hb : paddleBounce ball_x ball_y p ball =
          ({ ball with velocity_y := -ball.velocity_y }, true, [SoundType.BrickHit2]) := by
        simp [paddleBounce, hr, hov, hpl]
      have htail := ih { ball with velocity_y := -ball.velocity_y } hr
        (fun q hq => h q (List.mem_cons_of_mem p hq))
      refine ⟨?_, ?_, ?_⟩
      · show (if (paddleBounce ball_x ball_y p ball).2.1 then _ else p :: _) = _
        rw [hb]
        show (paddleLoop ball_x ball_y { ball with velocity_y := -ball.velocity_y } ps).2.1 = _
        rw [htail.1, List.filter_cons, if_neg (by simp [hov])]
      · show (paddleLoop ball_x ball_y
            (paddleBounce ball_x ball_y p ball).1 ps).1.velocity_y = _
        rw [hb, htail.2.1, List.filter_cons, if_pos (by simp [hov])]
        simp [pow_succ]
      · show (paddleBounce ball_x ball_y p ball).2.2 ++
          (paddleLoop ball_x ball_y (paddleBounce ball_x ball_y p ball).1 ps).2.2 = _
        rw [hb]
        simp only [htail.2.2]
        rw [List.filter_cons, if_pos (by simp [hov])]
        rfl
    · have hb : paddleBounce ball_x ball_y p ball = (ball, false, []) := by
        rw [paddleBounce, if_neg (by rw [hr]; simpa using hov)]
      have htail := ih ball hr (fun q hq => h q (List.mem_cons_of_mem p hq))
      refine ⟨?_, ?_, ?_⟩
      · show (if (paddleBounce ball_x ball_y p ball).2.1 then _ else p :: _) = _
        rw [hb]
        show p :: (paddleLoop ball_x ball_y ball ps).2.1 = _
        rw [htail.1, List.filter_cons, if_pos (by simpa using hov)]
      · show (paddleLoop ball_x ball_y
            (paddleBounce ball_x ball_y p ball).1 ps).1.velocity_y = _
        rw [hb, htail.2.1, List.filter_cons, if_neg (by simpa using hov)]
      · show (paddleBounce ball_x ball_y p ball).2.2 ++
          (paddleLoop ball_x ball_y (paddleBounce ball_x ball_y p ball).1 ps).2.2 = _
        rw [hb]
        simp only [htail.2.2]
        rw [List.filter_cons, if_neg (by simpa using hov)]
        rfl

/-- Folding `modeUpdate` over a frame list keeps the machine in Play
and folds `playUpdate` over the retained `PlayState`. -/
lemma modeUpdates_play (dts : List ℚ) (ps : PlaySt) :
    modeUpdates dts (Mode.play ps) =
      Mode.play (dts.foldl (fun p d => playUpdate d p) ps) := by
  induction dts generalizing ps with
  | nil => rfl
  | cons d ds ih => exact ih (playUpdate d ps)

/-- An elapsed debounce timer stays elapsed under further updates. -/
lemma playUpdate_foldl_none (dts : List ℚ) :
    dts.foldl (fun p d => playUpdate d p) { debounce_timer := none } =
      ({ debounce_timer := none } : PlaySt) := by
  induction dts with
  | nil => rfl
  | cons d ds ih => exact ih

/-- Exact value of the debounce timer after a list of nonnegative frame
delta-times: it counts down by the accumulated sum, and clears exactly
when the sum exceeds the remaining time. -/
lemma playUpdate_foldl_some (dts : List ℚ) (r : ℚ) (hr : 0 ≤ r)
    (hd : ∀ d ∈ dts, 0 ≤ d) :
    dts.foldl (fun p d => playUpdate d p) { debounce_timer := some r } =
      (if dts.sum ≤ r then { debounce_timer := some (r - dts.sum) }
        else ({ debounce_timer := none } : PlaySt)) := by
  induction dts generalizing r with
  | nil => simp [hr]
  | cons d ds ih =>
    have hd0 : 0 ≤ d := hd d (List.mem_cons_self d ds)
    have hds : ∀ x ∈ ds, 0 ≤ x := fun x hx => hd x (List.mem_cons_of_mem d hx)
    show ds.foldl (fun p d => playUpdate d p) (playUpdate d { debounce_timer := some r }) = _
    have hstep : playUpdate d ({ debounce_timer := some r } : PlaySt) =
        (if 0 ≤ r - d then { debounce_timer := some (r - d) }
          else ({ debounce_timer := none } : PlaySt)) := rfl
    rw [hstep]
    by_cases hcase : 0 ≤ r - d
    · rw [if_pos hcase, ih (r - d) hcase hds]
      have hiff : ds.sum ≤ r - d ↔ (d :: ds).sum ≤ r := by
        rw [List.sum_cons]
        constructor <;> intro <;> linarith
      by_cases hs : ds.sum ≤ r - d
      · rw [if_pos hs, if_pos (hiff.mp hs), List.sum_cons]
        have harith : r - d - ds.sum = r - (d + ds.sum) := by ring
        rw [harith]
      · rw [if_neg hs, if_neg (fun hc => hs (hiff.mpr hc))]
    · rw [if_neg hcase, playUpdate_foldl_none]
      have hsum : ¬(d :: ds).sum ≤ r := by
        have h0 : 0 ≤ ds.sum := List.sum_nonneg hds
        rw [List.sum_cons]
        intro hc
        linarith
      rw [if_neg hsum]

/-- Once the progress token is cleared, `StartState::update` polling is
the identity on the token and the background count. -/
lemma startUpdate_none (bg : ℕ) :
    startUpdate { progress_counter := none } bg = ({ progress_counter := none }, bg) := rfl

/-- Iterated polling after the token is cleared changes nothing. -/
lemma iterStartUpdate_none (n : ℕ) (bg : ℕ) :
    iterStartUpdate n ({ progress_counter := none }, bg) =
      ({ progress_counter := none }, bg) := by
  induction n with
  | zero => rfl
  | succ k ih => exact ih

/-- C1: after any wall, player-paddle, or brick bounce performed by the
collision resolver, the velocity component on the reflected axis is
exactly negated (same absolute value, flipped sign) and the component
on the orthogonal axis is unchanged. -/
theorem c1_bounce_elastic_reflection (ball_x ball_y : ℚ) (ball : Ball) (p : PaddleEnt) :
    ((ball_y ≤ ball.radius ∧ ball.velocity_y < 0) ∨
        (VIRTUAL_HEIGHT - ball.radius ≤ ball_y ∧ 0 < ball.velocity_y) →
      (wallVertical ball_y ball).1.velocity_y = -ball.velocity_y ∧
      |(wallVertical ball_y ball).1.velocity_y| = |ball.velocity_y| ∧
      (wallVertical ball_y ball).1.velocity_x = ball.velocity_x) ∧
    ((ball_x ≤ ball.radius ∧ ball.velocity_x < 0) ∨
        (VIRTUAL_WIDTH - ball.radius ≤ ball_x ∧ 0 < ball.velocity_x) →
      (wallHorizontal ball_x ball).1.velocity_x = -ball.velocity_x ∧
      |(wallHorizontal ball_x ball).1.velocity_x| = |ball.velocity_x| ∧
      (wallHorizontal ball_x ball).1.velocity_y = ball.velocity_y) ∧
    (ballOverlapsPaddle ball_x ball_y ball.radius p = true → p.isPlayer = true →
        ball.velocity_y < 0 →
      (paddleBounce ball_x ball_y p ball).1.velocity_y = -ball.velocity_y ∧
      |(paddleBounce ball_x ball_y p ball).1.velocity_y| = |ball.velocity_y| ∧
      (paddleBounce ball_x ball_y p ball).1.velocity_x = ball.velocity_x) ∧
    (ballOverlapsPaddle ball_x ball_y ball.radius p = true → p.isPlayer = false →
      (paddleBounce ball_x ball_y p ball).1.velocity_y = -ball.velocity_y ∧
      |(paddleBounce ball_x ball_y p ball).1.velocity_y| = |ball.velocity_y| ∧
      (paddleBounce ball_x ball_y p ball).1.velocity_x = ball.velocity_x) := by
  refine ⟨fun h => ?_, fun h => ?_, fun hov hp hv => ?_, fun hov hp => ?_⟩
  · rw [wallVertical, if_pos h]
    exact ⟨rfl, abs_neg _, rfl⟩
  · rw [wallHorizontal, if_pos h]
    exact ⟨rfl, abs_neg _, rfl⟩
  · rw [paddleBounce, if_pos hov, if_pos hp, if_pos hv]
    exact ⟨rfl, abs_neg _, rfl⟩
  · rw [paddleBounce, if_pos hov, if_neg (by simp [hp])]
    exact ⟨rfl, abs_neg _, rfl⟩

/-- Witness for C1: a low ball bouncing off the bottom wall, the left
wall, the Player paddle, and a brick, all at explicit coordinates. -/
theorem c1_bounce_elastic_reflection_witness :
    (wallVertical 2 ⟨-70, -70, 4⟩).1.velocity_y = -(Ball.velocity_y ⟨-70, -70, 4⟩) ∧
    (wallHorizontal 2 ⟨-70, -70, 4⟩).1.velocity_x = -(Ball.velocity_x ⟨-70, -70, 4⟩) ∧
    (paddleBounce 216 16 ⟨64, 16, 216, 16, true⟩ ⟨-70, -70, 4⟩).1.velocity_y =
      -(Ball.velocity_y ⟨-70, -70, 4⟩) ∧
    (paddleBounce 216 200 ⟨32, 16, 216, 200, false⟩ ⟨-70, -70, 4⟩).1.velocity_y =
      -(Ball.velocity_y ⟨-70, -70, 4⟩) :=
  ⟨((c1_bounce_elastic_reflection 216 2 ⟨-70, -70, 4⟩ ⟨64, 16, 216, 16, true⟩).1
      (Or.inl ⟨by norm_num, by norm_num⟩)).1,
    ((c1_bounce_elastic_reflection 2 200 ⟨-70, -70, 4⟩ ⟨64, 16, 216, 16, true⟩).2.1
      (Or.inl ⟨by norm_num, by norm_num⟩)).1,
    ((c1_bounce_elastic_reflection 216 16 ⟨-70, -70, 4⟩ ⟨64, 16, 216, 16, true⟩).2.2.1
      (by norm_num [ballOverlapsPaddle, point_in_rect]) rfl (by norm_num)).1,
    ((c1_bounce_elastic_reflection 216 200 ⟨-70, -70, 4⟩ ⟨32, 16, 216, 200, false⟩).2.2.2
      (by norm_num [ballOverlapsPaddle, point_in_rect]) rfl).1⟩

/-- C2: one step of `PaddleSystem::run` keeps the Player paddle's x
inside `[width / 2, VIRTUAL_WIDTH - width / 2]` for every axis value in
`[-1, 1]` and every nonnegative delta-time, however large, given that
the paddle starts inside the play field (as spawned). -/
theorem c2_paddle_clamp (delta_seconds horizontal width paddle_x : ℚ)
    (_ha1 : -1 ≤ horizontal) (_ha2 : horizontal ≤ 1) (_hdt : 0 ≤ delta_seconds)
    (hx1 : width / 2 ≤ paddle_x) (hx2 : paddle_x ≤ VIRTUAL_WIDTH - width / 2) :
    width / 2 ≤ paddleSystemStep delta_seconds horizontal width paddle_x ∧
      paddleSystemStep delta_seconds horizontal width paddle_x ≤ VIRTUAL_WIDTH - width / 2 := by
  unfold paddleSystemStep
  split_ifs with h
  · exact ⟨le_max_right _ _, max_le (min_le_right _ _) (hx1.trans hx2)⟩
  · exact ⟨hx1, hx2⟩

/-- Witness for C2: full-speed input with an adversarially large
delta-time of 10^6 seconds still lands inside the field. -/
theorem c2_paddle_clamp_witness :
    (64 : ℚ) / 2 ≤ paddleSystemStep 1000000 1 64 216 ∧
      paddleSystemStep 1000000 1 64 216 ≤ VIRTUAL_WIDTH - 64 / 2 :=
  c2_paddle_clamp 1000000 1 64 216 (by norm_num) (by norm_num) (by norm_num)
    (by norm_num) (by norm_num [VIRTUAL_WIDTH])

/-- C3: the vertical wall rule of `CollisionSystem::run` negates
`velocity_y` and requests the wall-hit sound whenever its trigger
condition holds; concretely, one resolver pass on a ball at (216, 2)
with velocity (-70, -70) and radius 4 yields `velocity_y = 70` with
the wall-hit sound requested exactly once. -/
theorem c3_wall_vertical (ball_y : ℚ) (ball : Ball)
    (h : (ball_y ≤ ball.radius ∧ ball.velocity_y < 0) ∨
      (VIRTUAL_HEIGHT - ball.radius ≤ ball_y ∧ 0 < ball.velocity_y)) :
    wallVertical ball_y ball =
      ({ ball with velocity_y := -ball.velocity_y }, [SoundType.WallHit]) ∧
    collisionPass 216 2 ⟨-70, -70, 4⟩ [] = (⟨-70, 70, 4⟩, [], [SoundType.WallHit]) ∧
    ((collisionPass 216 2 ⟨-70, -70, 4⟩ []).2.2.count SoundType.WallHit = 1) := by
  refine ⟨?_, ?_, ?_⟩
  · rw [wallVertical, if_pos h]
  · norm_num [collisionPass, wallVertical, wallHorizontal, paddleLoop,
      VIRTUAL_HEIGHT, VIRTUAL_WIDTH]
  · norm_num [collisionPass, wallVertical, wallHorizontal, paddleLoop,
      VIRTUAL_HEIGHT, VIRTUAL_WIDTH]

/-- Witness for C3: the bottom-wall trigger discharged at the ball of
the concrete scenario. -/
theorem c3_wall_vertical_witness :
    wallVertical 2 ⟨-70, -70, 4⟩ =
      ({ (⟨-70, -70, 4⟩ : Ball) with velocity_y := -(Ball.velocity_y ⟨-70, -70, 4⟩) },
        [SoundType.WallHit]) :=
  (c3_wall_vertical 2 ⟨-70, -70, 4⟩ (Or.inl ⟨by norm_num, by norm_num⟩)).1

/-- C4: a brick (non-Player paddle-like entity) whose radius-expanded
box contains the ball's center is deleted by one resolver pass, with
`velocity_y` negated unconditionally and a brick-hit sound requested;
the deleted brick is absent after the pass and after any number of
further passes. -/
theorem c4_brick_deleted (ball_x ball_y : ℚ) (ball : Ball) (ents : List PaddleEnt)
    (p : PaddleEnt) (frames : List (ℚ × ℚ)) (_hmem : p ∈ ents)
    (hbrick : p.isPlayer = false)
    (hov : ballOverlapsPaddle ball_x ball_y ball.radius p = true) :
    paddleBounce ball_x ball_y p ball =
      ({ ball with velocity_y := -ball.velocity_y }, true, [SoundType.BrickHit2]) ∧
    p ∉ (collisionPass ball_x ball_y ball ents).2.1 ∧
    p ∉ (runFrames frames
      ((collisionPass ball_x ball_y ball ents).1,
        (collisionPass ball_x ball_y ball ents).2.1)).2 := by
  have h2 : p ∉ (collisionPass ball_x ball_y ball ents).2.1 := by
    rw [collisionPass_ents_eq_filter]
    simp [List.mem_filter, hov, hbrick]
  refine ⟨?_, h2, runFrames_not_mem frames _ _ p h2⟩
  rw [paddleBounce, if_pos hov, if_neg (by simp [hbrick])]

/-- Witness for C4: a ball moving upward into a single brick; the brick
is gone after the pass and after two further frames. -/
theorem c4_brick_deleted_witness :
    paddleBounce 216 200 ⟨32, 16, 216, 200, false⟩ ⟨-70, 70, 4⟩ =
      ({ (⟨-70, 70, 4⟩ : Ball) with velocity_y := -(Ball.velocity_y ⟨-70, 70, 4⟩) },
        true, [SoundType.BrickHit2]) ∧
    (⟨32, 16, 216, 200, false⟩ : PaddleEnt) ∉
      (collisionPass 216 200 ⟨-70, 70, 4⟩ [⟨32, 16, 216, 200, false⟩]).2.1 ∧
    (⟨32, 16, 216, 200, false⟩ : PaddleEnt) ∉
      (runFrames [(100, 100), (50, 50)]
        ((collisionPass 216 200 ⟨-70, 70, 4⟩ [⟨32, 16, 216, 200, false⟩]).1,
          (collisionPass 216 200 ⟨-70, 70, 4⟩ [⟨32, 16, 216, 200, false⟩]).2.1)).2 :=
  c4_brick_deleted 216 200 ⟨-70, 70, 4⟩ [⟨32, 16, 216, 200, false⟩]
    ⟨32, 16, 216, 200, false⟩ [(100, 100), (50, 50)] (List.mem_singleton.mpr rfl) rfl
    (by norm_num [ballOverlapsPaddle, point_in_rect])

/-- C5: a Player-tagged paddle in the store is still in the store after
any number of collision-resolver passes, whatever the ball's state and
positions. -/
theorem c5_player_never_deleted (ball : Ball) (ents : List PaddleEnt) (p : PaddleEnt)
    (frames : List (ℚ × ℚ)) (hmem : p ∈ ents) (hp : p.isPlayer = true) :
    p ∈ (runFrames frames (ball, ents)).2 :=
  runFrames_player_mem frames ball ents p hmem hp

/-- Witness for C5: the Player paddle overlapped by the ball on three
consecutive frames is still present. -/
theorem c5_player_never_deleted_witness :
    (⟨64, 16, 216, 16, true⟩ : PaddleEnt) ∈
      (runFrames [(216, 16), (216, 16), (216, 16)]
        (⟨-70, -70, 4⟩, [⟨64, 16, 216, 16, true⟩])).2 :=
  c5_player_never_deleted ⟨-70, -70, 4⟩ [⟨64, 16, 216, 16, true⟩]
    ⟨64, 16, 216, 16, true⟩ [(216, 16), (216, 16), (216, 16)]
    (List.mem_singleton.mpr rfl) rfl

/-- C6: in a frame where every entity the ball overlaps is a brick,
each independently-satisfied overlap applies its full effect with no
de-duplication: every overlapped brick is deleted (and only those),
`velocity_y` is flipped once per overlapped brick — so an even number
of simultaneous brick overlaps leaves it unchanged — and one brick-hit
sound is requested per overlapped brick. -/
theorem c6_simultaneous_overlaps (ball_x ball_y : ℚ) (ball : Ball) (ents : List PaddleEnt)
    (h : ∀ q ∈ ents,
      ballOverlapsPaddle ball_x ball_y ball.radius q = true → q.isPlayer = false) :
    (paddleLoop ball_x ball_y ball ents).2.1 =
      ents.filter (fun q => !ballOverlapsPaddle ball_x ball_y ball.radius q) ∧
    (paddleLoop ball_x ball_y ball ents).1.velocity_y =
      (-1) ^ (ents.filter
          (fun q => ballOverlapsPaddle ball_x ball_y ball.radius q)).length *
        ball.velocity_y ∧
    (paddleLoop ball_x ball_y ball ents).2.2 =
      List.replicate
        (ents.filter (fun q => ballOverlapsPaddle ball_x ball_y ball.radius q)).length
        SoundType.BrickHit2 ∧
    (2 ∣ (ents.filter
        (fun q => ballOverlapsPaddle ball_x ball_y ball.radius q)).length →
      (paddleLoop ball_x ball_y ball ents).1.velocity_y = ball.velocity_y) := by
  obtain ⟨h1, h2, h3⟩ := paddleLoop_overlapped_bricks ball_x ball_y ball.radius ball rfl ents h
  refine ⟨h1, h2, h3, fun hdvd => ?_⟩
  obtain ⟨c, hc⟩ := hdvd
  rw [h2, hc, pow_mul]
  norm_num

/-- Witness for C6: two overlapping bricks and a non-overlapping Player
paddle in one frame; both bricks are deleted, the paddle survives, two
brick-hit sounds are requested, and `velocity_y` is back to its
original value. -/
theorem c6_simultaneous_overlaps_witness :
    (paddleLoop 216 200 ⟨-70, 70, 4⟩
      [⟨32, 16, 216, 200, false⟩, ⟨32, 16, 220, 204, false⟩,
        ⟨64, 16, 216, 16, true⟩]).2.1 = [⟨64, 16, 216, 16, true⟩] ∧
    (paddleLoop 216 200 ⟨-70, 70, 4⟩
      [⟨32, 16, 216, 200, false⟩, ⟨32, 16, 220, 204, false⟩,
        ⟨64, 16, 216, 16, true⟩]).1.velocity_y = Ball.velocity_y ⟨-70, 70, 4⟩ ∧
    (paddleLoop 216 200 ⟨-70, 70, 4⟩
      [⟨32, 16, 216, 200, false⟩, ⟨32, 16, 220, 204, false⟩,
        ⟨64, 16, 216, 16, true⟩]).2.2 = List.replicate 2 SoundType.BrickHit2 := by
  have hall := c6_simultaneous_overlaps 216 200 ⟨-70, 70, 4⟩
    [⟨32, 16, 216, 200, false⟩, ⟨32, 16, 220, 204, false⟩, ⟨64, 16, 216, 16, true⟩]
    (by
      intro q hq
      simp only [List.mem_cons, List.not_mem_nil, or_false] at hq
      rcases hq with rfl | rfl | rfl
      · exact fun _ => rfl
      · exact fun _ => rfl
      · norm_num [ballOverlapsPaddle, point_in_rect])
  have hfilter :
      List.filter (fun q => ballOverlapsPaddle 216 200 (Ball.radius ⟨-70, 70, 4⟩) q)
        [⟨32, 16, 216, 200, false⟩, ⟨32, 16, 220, 204, false⟩,
          ⟨64, 16, 216, 16, true⟩] =
      [⟨32, 16, 216, 200, false⟩, ⟨32, 16, 220, 204, false⟩] := by
    norm_num [List.filter_cons, ballOverlapsPaddle, point_in_rect]
  have hfilterNeg :
      List.filter (fun q => !ballOverlapsPaddle 216 200 (Ball.radius ⟨-70, 70, 4⟩) q)
        [⟨32, 16, 216, 200, false⟩, ⟨32, 16, 220, 204, false⟩,
          ⟨64, 16, 216, 16, true⟩] =
      [⟨64, 16, 216, 16, true⟩] := by
    norm_num [List.filter_cons, ballOverlapsPaddle, point_in_rect]
  refine ⟨?_, ?_, ?_⟩
  · rw [hall.1, hfilterNeg]
  · rw [hall.2.2.2 (by rw [hfilter]; exact ⟨1, rfl⟩)]
  · rw [hall.2.2.1, hfilter]
    rfl

/-- C10: a ball overlapping the Player paddle while moving upward
(`velocity_y ≥ 0`) is left untouched by that overlap: no velocity
change, no deletion, no sound request. -/
theorem c10_player_overlap_moving_up_noop (ball_x ball_y : ℚ) (ball : Ball)
    (p : PaddleEnt) (hov : ballOverlapsPaddle ball_x ball_y ball.radius p = true)
    (hp : p.isPlayer = true) (hv : 0 ≤ ball.velocity_y) :
    paddleBounce ball_x ball_y p ball = (ball, false, []) := by
  rw [paddleBounce, if_pos hov, if_pos hp, if_neg (not_lt.mpr hv)]

/-- Witness for C10: a ball moving upward through the Player paddle's
expanded box comes out unchanged. -/
theorem c10_player_overlap_moving_up_noop_witness :
    paddleBounce 216 16 ⟨64, 16, 216, 16, true⟩ ⟨-70, 70, 4⟩ =
      ((⟨-70, 70, 4⟩ : Ball), false, []) :=
  c10_player_overlap_moving_up_noop 216 16 ⟨-70, 70, 4⟩ ⟨64, 16, 216, 16, true⟩
    (by norm_num [ballOverlapsPaddle, point_in_rect]) rfl (by norm_num)

/-- C7: popping Paused with Space restarts the 0.25 s debounce timer;
while the accumulated nonnegative frame delta-times have not exhausted
it, a further Space press in Play is swallowed (no transition); once
they exceed 0.25 s the timer clears and Space pushes Paused again. -/
theorem c7_pause_debounce (ps : PlaySt) (ui : TitleUi) (dts : List ℚ)
    (hd : ∀ d ∈ dts, 0 ≤ d) :
    (handleSpace (Mode.paused ps, ui)).1 = Mode.play { debounce_timer := some (1 / 4) } ∧
    (dts.sum ≤ 1 / 4 →
      modeUpdates dts (Mode.play { debounce_timer := some (1 / 4) }) =
        Mode.play { debounce_timer := some (1 / 4 - dts.sum) } ∧
      ∀ ui2, (handleSpace
          (modeUpdates dts (Mode.play { debounce_timer := some (1 / 4) }), ui2)).1 =
        modeUpdates dts (Mode.play { debounce_timer := some (1 / 4) })) ∧
    (1 / 4 < dts.sum →
      modeUpdates dts (Mode.play { debounce_timer := some (1 / 4) }) =
        Mode.play { debounce_timer := none } ∧
      ∀ ui2, (handleSpace
          (modeUpdates dts (Mode.play { debounce_timer := some (1 / 4) }), ui2)).1 =
        Mode.paused { debounce_timer := none }) := by
  have hfold := playUpdate_foldl_some dts (1 / 4) (by norm_num) hd
  refine ⟨rfl, fun hsum => ?_, fun hsum => ?_⟩
  · rw [modeUpdates_play, hfold, if_pos hsum]
    exact ⟨rfl, fun ui2 => by simp [handleSpace]⟩
  · rw [modeUpdates_play, hfold, if_neg (not_le.mpr hsum)]
    exact ⟨rfl, fun ui2 => by simp [handleSpace, play_on_pause]⟩

/-- Witness for C7: after the pop the timer reads 0.25 s; an immediate
second Space press (no frames elapsed) is swallowed; after a one-second
frame the timer is exhausted and Space pushes Paused. -/
theorem c7_pause_debounce_witness :
    (handleSpace (Mode.paused { debounce_timer := none },
        { text := "PAUSED", hidden := true })).1 =
      Mode.play { debounce_timer := some (1 / 4) } ∧
    (handleSpace (modeUpdates [] (Mode.play { debounce_timer := some (1 / 4) }),
        ({ text := "PAUSED", hidden := true } : TitleUi))).1 =
      modeUpdates [] (Mode.play { debounce_timer := some (1 / 4) }) ∧
    (handleSpace (modeUpdates [1] (Mode.play { debounce_timer := some (1 / 4) }),
        ({ text := "PAUSED", hidden := true } : TitleUi))).1 =
      Mode.paused { debounce_timer := none } := by
  have h1 := c7_pause_debounce { debounce_timer := none }
    { text := "PAUSED", hidden := true } [] (by simp)
  have h2 := c7_pause_debounce { debounce_timer := none }
    { text := "PAUSED", hidden := true } [1]
    (by intro d hmem; rw [List.mem_singleton] at hmem; subst hmem; norm_num)
  exact ⟨h1.1, (h1.2.1 (by norm_num)).2 _, (h2.2.2 (by norm_num [List.sum_cons])).2 _⟩

/-- C8: once the asset-load progress token polls complete,
`StartState::update` spawns the background (exactly one `Background`
asset is in the sprite-sheet map) and clears the token, and every
further polling step is the identity: no additional background entity
is ever spawned. -/
theorem c8_start_poll_idempotent (st : StartSt) (bg : ℕ)
    (hc : st.progress_counter = some true) :
    (startUpdate st bg).1.progress_counter = none ∧
    (startUpdate st bg).2 = bg + 1 ∧
    ∀ n, iterStartUpdate n (startUpdate st bg) = startUpdate st bg := by
  obtain ⟨o⟩ := st
  simp only at hc
  subst hc
  refine ⟨rfl, rfl, fun n => ?_⟩
  show iterStartUpdate n ({ progress_counter := none }, bg + 1) = _
  rw [iterStartUpdate_none]
  rfl

/-- Witness for C8: from a completed token and zero backgrounds, one
update spawns the single background and clears the token, and five
further polls change nothing. -/
theorem c8_start_poll_idempotent_witness :
    (startUpdate { progress_counter := some true } 0).1.progress_counter = none ∧
    (startUpdate { progress_counter := some true } 0).2 = 0 + 1 ∧
    iterStartUpdate 5 (startUpdate { progress_counter := some true } 0) =
      startUpdate { progress_counter := some true } 0 :=
  ⟨(c8_start_poll_idempotent { progress_counter := some true } 0 rfl).1,
    (c8_start_poll_idempotent { progress_counter := some true } 0 rfl).2.1,
    (c8_start_poll_idempotent { progress_counter := some true } 0 rfl).2.2 5⟩

/-- C9 counterexample: `PlayState::on_pause` does not relabel the title
text — starting from a title reading "BREAKOUT", the text after
`on_pause` still reads "BREAKOUT", not "PAUSED" (the "PAUSED" label is
written once by `PlayState::on_start`, and `on_resume` never writes the
text back either). -/
theorem c9_on_pause_does_not_relabel :
    (play_on_pause { debounce_timer := none }
      { text := "BREAKOUT", hidden := true }).2.1.text ≠ "PAUSED" := by
  simp [play_on_pause]

/-- C9 amended: `PlayState::on_start` relabels the title text to
"PAUSED" once at Play entry; `on_pause` reveals that text (removes the
`Hidden` marker) and `on_resume` hides it again (inserts `Hidden`) and
restarts the 0.25 s debounce timer; neither handler changes the text
content. -/
theorem c9_pause_resume_effects (ps : PlaySt) (ui : TitleUi) :
    (play_on_start_title ui).text = "PAUSED" ∧
    play_on_pause ps ui = (ps, { ui with hidden := false }, [SoundType.Pause]) ∧
    play_on_resume ps ui =
      ({ ps with debounce_timer := some (1 / 4) }, { ui with hidden := true },
        [SoundType.Pause]) :=
  ⟨rfl, rfl, rfl⟩

end Breakout
